import Mathlib

/-!
Verification development for the smolweb-demo repository: two programs
(`src/tokio-demo/src/main.rs` and `src/embassy-demo/src/main.rs`) that each
register four HTTP routes on a picoserve router — three static assets and one
stateful LED-toggle endpoint `/toggle_led/{id}` with `{id}` parsed as `u8` —
over a single shared actuator state (tokio: `Rc<RefCell<Control { led2: bool }>>`;
embassy: `Mutex<CriticalSectionRawMutex, Output<PE1>>`).

The routing/dispatch machinery and the HTTP stack live in the external
picoserve library; definitions that embed that external contract are marked
`Modelled from the spec:` in their doc comments.  Everything else is
translated directly from the two `main.rs` files.
-/

namespace Smolweb

/-- An HTTP request as seen by the router: a method string and the path split
into its slash-separated segments (the empty list is the root path `/`). -/
structure Request where
  method : String
  segments : List String
deriving DecidableEq

/-- The responses the service can produce.  `content` carries the content-type
tag fixed at route registration; `text` is the short plain-text body of the
toggle endpoint; `badRequest` is the client-error response for a failed typed
path-segment parse; `notFound` is the response for an unmatched route. -/
inductive Response where
  | content (contentType : String) (body : String)
  | text (body : String)
  | badRequest
  | notFound
deriving DecidableEq

/-- The three static payloads served by `include_str!("index.html")`,
`include_str!("index.css")` and `include_str!("index.js")`.  The asset files
are part of the repository but not under `src/`, so the development is
parameterised over their contents: every claim about them holds for all
payloads. -/
structure StaticAssets where
  html : String
  css : String
  js : String
deriving DecidableEq

/-- Modelled from the spec: the typed path-segment extraction
`parse_path_segment::<u8>()`, i.e. Rust's `u8::from_str` applied to one path
segment — an optional leading `+`, then at least one decimal digit, value at
most 255; anything else (including overflow such as `"256"`) is a parse
failure. -/
def parseU8 (s : String) : Option Nat :=
  let cs := if s.data.head? = some '+' then s.data.tail else s.data
  if cs = [] then none
  else if cs.all (fun c => c.isDigit) then
    let n := cs.foldl (fun acc c => acc * 10 + (c.toNat - 48)) 0
    if n ≤ 255 then some n else none
  else none

/-- Extracts the single trailing segment of a `("/toggle_led", parse_path_segment())`
route match: the path must consist of exactly the literal segment `toggle_led`
followed by one more segment. -/
def toggleSeg : List String → Option String
  | ["toggle_led", seg] => some seg
  | _ => none

/-- The result of running a toggle handler: the new shared state, the response
body handed back to the server, and the message written to the log. -/
structure ToggleResult (σ : Type) where
  state : σ
  body : String
  log : String
deriving DecidableEq

/-! ## The tokio demo (`src/tokio-demo/src/main.rs`) -/

/-- The Rust struct `Control { led2: bool }` (tokio-demo, lines 15–17). -/
structure Control where
  led2 : Bool
deriving DecidableEq

/-- The tokio toggle handler (tokio-demo, lines 45–56):
`info!("Toggling LED{}", led_type)`, then `*led2 = !*led2` through
`state.borrow_mut()`, then the body is `"ON"` if the post-toggle value is
true and `"OFF"` otherwise. -/
def tokioToggleHandler (led_type : Nat) (state : Control) : ToggleResult Control :=
  let log := "Toggling LED" ++ toString led_type
  let led2 := !state.led2
  { state := { led2 := led2 }, body := if led2 then "ON" else "OFF", log := log }

/-- The shared state created at startup: `Control { led2: true }`
(tokio-demo, line 68). -/
def tokioInitialControl : Control := { led2 := true }

/-- Modelled from the spec: picoserve's `Router::dispatch` over the route
table registered in tokio-demo lines 29–58 — first (method, path) match wins;
a failed typed-segment parse yields a client error without invoking the
handler; an unmatched request yields not-found.  The four routes and the
handler bodies are from the source; static files carry the content-type fixed
by `File::html` / `File::css` / `File::javascript` at registration. -/
def tokioDispatch (assets : StaticAssets) (req : Request) (s : Control) :
    Control × Response :=
  if req.method = "GET" then
    if req.segments = [] then (s, .content "text/html" assets.html)
    else if req.segments = ["index.css"] then (s, .content "text/css" assets.css)
    else if req.segments = ["index.js"] then
      (s, .content "application/javascript" assets.js)
    else
      match toggleSeg req.segments with
      | some seg =>
        match parseU8 seg with
        | some led_type =>
          let r := tokioToggleHandler led_type s
          (r.state, .text r.body)
        | none => (s, .badRequest)
      | none => (s, .notFound)
  else (s, .notFound)

/-- Serves a sequence of requests against the tokio router, threading the
shared state through and collecting the responses in order. -/
def tokioServe (assets : StaticAssets) : List Request → Control → Control × List Response
  | [], s => (s, [])
  | req :: rest, s =>
    let p := tokioDispatch assets req s
    let q := tokioServe assets rest p.1
    (q.1, p.2 :: q.2)

/-! ## The embassy demo (`src/embassy-demo/src/main.rs`) -/

/-- The GPIO output level of the PE1 pin (`embassy_stm32::gpio::Level`). -/
inductive Level where
  | low
  | high
deriving DecidableEq

/-- The pin operation `Output::toggle` — flips the pin level. -/
def Level.toggle : Level → Level
  | .low => .high
  | .high => .low

/-- The pin operation `Output::is_set_high` — reads back whether the pin
output level is high. -/
def Level.isSetHigh : Level → Bool
  | .low => false
  | .high => true

/-- The embassy toggle handler (embassy-demo, lines 190–196):
`info!("Toggling LED{}", led_type)`, then `control.lock().await`,
`control.toggle()`, `let led_state = control.is_set_high()`, and the body is
`"ON"` if `led_state` and `"OFF"` otherwise (the source wraps the text in
`DebugValue`; its rendering by the external picoserve library is modelled
from the spec as the short text body itself). -/
def embassyToggleHandler (led_type : Nat) (control : Level) : ToggleResult Level :=
  let log := "Toggling LED" ++ toString led_type
  let control := control.toggle
  let led_state := control.isSetHigh
  { state := control, body := if led_state then "ON" else "OFF", log := log }

/-- The initial level of the yellow LED pin that becomes the shared actuator:
`Output::new(p.PE1, Level::High, Speed::Low)` (embassy-demo, lines 118
and 210). -/
def embassyInitialLevel : Level := .high

/-- Modelled from the spec: picoserve dispatch over the route table of
`make_app` (embassy-demo, lines 173–199), which registers the same four
routes as the tokio demo with the embassy toggle handler. -/
def embassyDispatch (assets : StaticAssets) (req : Request) (l : Level) :
    Level × Response :=
  if req.method = "GET" then
    if req.segments = [] then (l, .content "text/html" assets.html)
    else if req.segments = ["index.css"] then (l, .content "text/css" assets.css)
    else if req.segments = ["index.js"] then
      (l, .content "application/javascript" assets.js)
    else
      match toggleSeg req.segments with
      | some seg =>
        match parseU8 seg with
        | some led_type =>
          let r := embassyToggleHandler led_type l
          (r.state, .text r.body)
        | none => (l, .badRequest)
      | none => (l, .notFound)
  else (l, .notFound)

/-- Serves a sequence of requests against the embassy router, threading the
pin level through and collecting the responses in order. -/
def embassyServe (assets : StaticAssets) : List Request → Level → Level × List Response
  | [], l => (l, [])
  | req :: rest, l =>
    let p := embassyDispatch assets req l
    let q := embassyServe assets rest p.1
    (q.1, p.2 :: q.2)

/-- Whether a request matches one of the four registered routes: method `GET`
and path `/`, `/index.css`, `/index.js`, or `/toggle_led/{seg}` for some
single segment `seg` (route table of both demos). -/
def matchesRoute (req : Request) : Bool :=
  req.method == "GET" &&
    (req.segments == [] || req.segments == ["index.css"] ||
      req.segments == ["index.js"] || (toggleSeg req.segments).isSome)

/-! ## Concurrent toggles as atomic critical sections

In both programs each toggle runs inside a critical section that contains
no suspension point and no other shared-state access: the tokio handler
holds the `RefCell` borrow for the flip and read-back under a
single-threaded executor, and the embassy handler holds the mutex across
`toggle()` and `is_set_high()`.  A concurrent execution of K toggle calls is
therefore modelled as an arbitrary serialisation of K atomic flip-and-observe
steps; since every call performs the identical step, every serialisation is
the sequential run below. -/

/-- Runs k atomic toggle critical sections from state `s`: each step flips
the state and observes exactly the value produced by its own flip.  Returns
the final state and the list of per-call observations, in execution order. -/
def runToggles : Nat → Bool → Bool × List Bool
  | 0, s => (s, [])
  | k + 1, s =>
    let p := runToggles k (!s)
    (p.1, (!s) :: p.2)

/-! ## The toggle handler as an event trace

Abstract events of one execution of a toggle handler, used for the ordering
contract on the critical section.  For the tokio handler the mapping to
source lines 45–56 is: `acquire` is `state.borrow_mut()`, `mutate` is
`*led2 = !*led2`, `readBack` is the dereference of the post-toggle value
(the `debug!` line and the selection of the text `"ON"`/`"OFF"`, a pure
function of the value just read), `release` is the drop of the `RefMut` at
the end of the handler block, and `respond` is the server writing the
response after the handler future has returned.  For the embassy handler
(lines 190–196): `acquire` is `control.lock().await`, `mutate` is
`control.toggle()`, `readBack` is `control.is_set_high()` together with the
selection of the text from the copied boolean, `release` is the drop of the
mutex guard at the end of the handler block, and `respond` is the server
writing the response after the handler returns. -/

/-- Abstract events of one toggle-handler execution. -/
inductive HandlerEvent where
  | acquire
  | mutate
  | readBack
  | release
  | respond
deriving DecidableEq

/-- Event trace of the tokio toggle handler, in source order. -/
def tokioToggleTrace : List HandlerEvent :=
  [.acquire, .mutate, .readBack, .release, .respond]

/-- Event trace of the embassy toggle handler, in source order. -/
def embassyToggleTrace : List HandlerEvent :=
  [.acquire, .mutate, .readBack, .release, .respond]

/-- The ordering contract on a handler trace: acquisition precedes mutation,
mutation precedes the read-back, the read-back precedes the release, and the
release precedes the response; acquire, release and respond each occur
exactly once. -/
def criticalSectionOrdered (t : List HandlerEvent) : Prop :=
  t.count .acquire = 1 ∧ t.count .release = 1 ∧ t.count .respond = 1 ∧
  t.indexOf .acquire < t.indexOf .mutate ∧
  t.indexOf .mutate < t.indexOf .readBack ∧
  t.indexOf .readBack < t.indexOf .release ∧
  t.indexOf .release < t.indexOf .respond

/-! ## The tokio RefCell under the cooperative single-thread executor

The tokio program runs every connection task on a `LocalSet` over a
current-thread executor: tasks interleave only at `.await` suspension
points.  The spawned connection task is abstracted as the sequence of
primitive operations below; `awaitPoint` marks the suspension points of the
surrounding server loop (reading the request, writing the response), and the
ops between them are the handler body, which contains no `.await`.  The
model contains every access to the shared `RefCell` in the program: the only
other access in the source, a `state.borrow()` inside a `debug!` call, is
commented out (tokio-demo, line 49). -/

/-- Primitive operations of a cooperative task, as far as the shared
`RefCell` is concerned. -/
inductive TaskOp where
  | awaitPoint
  | borrowMut
  | releaseBorrow
  | otherOp
deriving DecidableEq

/-- The operations of one tokio connection task serving one toggle request:
await the request, log, `borrow_mut`, flip, log the new value, select the
body text, drop the `RefMut`, await the response write (tokio-demo,
lines 45–56 inside the picoserve serve loop). -/
def tokioHandlerOps : List TaskOp :=
  [.awaitPoint, .otherOp, .borrowMut, .otherOp, .otherOp, .otherOp,
    .releaseBorrow, .awaitPoint]

/-- Splits a task's operations into its atomic segments: the maximal runs of
operations between suspension points.  Under a cooperative single-thread
executor, context switches happen only between segments. -/
def splitSegments : List TaskOp → List (List TaskOp)
  | [] => [[]]
  | .awaitPoint :: rest => [] :: splitSegments rest
  | op :: rest =>
    match splitSegments rest with
    | [] => [[op]]
    | seg :: segs => (op :: seg) :: segs

/-- Executes one atomic segment against the `RefCell` borrow flag.  The
semantics of `RefCell::borrow_mut` on an already-borrowed cell is a panic,
modelled as `none`. -/
def execSegment : List TaskOp → Bool → Option Bool
  | [], b => some b
  | .borrowMut :: rest, b => if b then none else execSegment rest true
  | .releaseBorrow :: rest, _ => execSegment rest false
  | _ :: rest, b => execSegment rest b

/-- Executes a cooperative run: a sequence of atomic segments, each from
some task, executed without interruption in order. -/
def execRun : List (List TaskOp) → Bool → Option Bool
  | [], b => some b
  | seg :: rest, b =>
    match execSegment seg b with
    | none => none
    | some b2 => execRun rest b2

/-! ## Helper lemmas -/

/-- A run of k atomic toggles ends in the initial state XOR the parity of k. -/
theorem runToggles_fst (k : Nat) (s0 : Bool) :
    (runToggles k s0).1 = Bool.xor s0 (decide (k % 2 = 1)) := by
  induction k generalizing s0 with
  | zero => simp [runToggles]
  | succ k ih =>
    simp only [runToggles, ih (!s0)]
    rcases Nat.mod_two_eq_zero_or_one k with h | h
    · have h2 : (k + 1) % 2 = 1 := by omega
      simp [h, h2]
    · have h2 : (k + 1) % 2 = 0 := by omega
      simp [h, h2]

/-- A run of k atomic toggles produces exactly k observations. -/
theorem runToggles_length (k : Nat) (s0 : Bool) :
    (runToggles k s0).2.length = k := by
  induction k generalizing s0 with
  | zero => rfl
  | succ k ih => simp [runToggles, ih (!s0)]

/-- The i-th call of a run of k atomic toggles observes exactly the value
produced by its own flip: the initial state XOR the parity of i + 1. -/
theorem runToggles_get (k : Nat) (s0 : Bool) (i : Nat) (h : i < k) :
    (runToggles k s0).2.get? i = some (Bool.xor s0 (decide ((i + 1) % 2 = 1))) := by
  induction k generalizing s0 i with
  | zero => omega
  | succ k ih =>
    cases i with
    | zero =>
      simp [runToggles]
    | succ i =>
      have hik : i < k := by omega
      simp only [runToggles, List.get?_cons_succ, ih (!s0) i hik]
      rcases Nat.mod_two_eq_zero_or_one (i + 1) with h1 | h1
      · have h2 : (i + 1 + 1) % 2 = 1 := by omega
        simp [h1, h2]
      · have h2 : (i + 1 + 1) % 2 = 0 := by omega
        simp [h1, h2]

/-! ## The claims -/

/-- C1: for every GET request to `/toggle_led/{id}` whose segment parses as
an unsigned 8-bit integer, the shared actuator state is flipped exactly once
and the response body is exactly `"ON"` when the post-toggle state is on and
`"OFF"` when it is off, in both demos: the body is the value read back after
the mutation, with no extra formatting. -/
theorem toggle_route_flips_state_and_reports_post_toggle_value
    (assets : StaticAssets) (seg : String) (n : Nat) (h : parseU8 seg = some n)
    (s : Control) (l : Level) :
    tokioDispatch assets ⟨"GET", ["toggle_led", seg]⟩ s =
      ({ led2 := !s.led2 }, .text (if !s.led2 then "ON" else "OFF")) ∧
    embassyDispatch assets ⟨"GET", ["toggle_led", seg]⟩ l =
      (l.toggle, .text (if l.toggle.isSetHigh then "ON" else "OFF")) := by
  constructor <;>
    simp [tokioDispatch, embassyDispatch, toggleSeg, h, tokioToggleHandler,
      embassyToggleHandler]

/-- Witness for C1 at segment `"1"` from state on: the toggle succeeds and
reports `"OFF"` in both demos. -/
theorem toggle_route_flips_state_and_reports_post_toggle_value_witness :
    tokioDispatch ⟨"", "", ""⟩ ⟨"GET", ["toggle_led", "1"]⟩ ⟨true⟩ =
      (⟨false⟩, .text "OFF") ∧
    embassyDispatch ⟨"", "", ""⟩ ⟨"GET", ["toggle_led", "1"]⟩ .high =
      (.low, .text "OFF") :=
  toggle_route_flips_state_and_reports_post_toggle_value ⟨"", "", ""⟩ "1" 1
    (by decide) ⟨true⟩ .high

/-- C2: from every known initial actuator state, one call to the toggle
handler returns the textual representation opposite to the initial one, and a
second immediate call restores the initial state and returns its original
representation — double toggle is the identity, in both demos. -/
theorem double_toggle_is_identity (n m : Nat) (s : Control) (l : Level) :
    (tokioToggleHandler m (tokioToggleHandler n s).state).state = s ∧
    (tokioToggleHandler n s).body = (if s.led2 then "OFF" else "ON") ∧
    (tokioToggleHandler m (tokioToggleHandler n s).state).body =
      (if s.led2 then "ON" else "OFF") ∧
    (embassyToggleHandler m (embassyToggleHandler n l).state).state = l ∧
    (embassyToggleHandler n l).body = (if l.isSetHigh then "OFF" else "ON") ∧
    (embassyToggleHandler m (embassyToggleHandler n l).state).body =
      (if l.isSetHigh then "ON" else "OFF") := by
  obtain ⟨b⟩ := s
  cases b <;> cases l <;>
    simp [tokioToggleHandler, embassyToggleHandler, Level.toggle, Level.isSetHigh]

/-- C3: a concurrent execution of K toggle calls — modelled as an arbitrary
serialisation of K atomic flip-and-observe critical sections, which all
coincide with the sequential run since every call performs the identical
atomic step — applies exactly K flips: the final state is the initial state
XOR (K mod 2), there are exactly K observations, and the i-th call observes
precisely the value produced by its own flip (the initial state XOR the
parity of i + 1), never a value of another call's flip. -/
theorem concurrent_toggles_apply_exactly_k_flips
    (k : Nat) (s0 : Bool) (i : Nat) (hik : i < k) :
    (runToggles k s0).1 = Bool.xor s0 (decide (k % 2 = 1)) ∧
    (runToggles k s0).2.length = k ∧
    (runToggles k s0).2.get? i = some (Bool.xor s0 (decide ((i + 1) % 2 = 1))) :=
  ⟨runToggles_fst k s0, runToggles_length k s0, runToggles_get k s0 i hik⟩

/-- Witness for C3 with three toggles from on: the final state is off and the
second call observes on, the result of its own flip. -/
theorem concurrent_toggles_apply_exactly_k_flips_witness :
    (runToggles 3 true).1 = Bool.xor true (decide (3 % 2 = 1)) ∧
    (runToggles 3 true).2.length = 3 ∧
    (runToggles 3 true).2.get? 1 = some (Bool.xor true (decide ((1 + 1) % 2 = 1))) :=
  concurrent_toggles_apply_exactly_k_flips 3 true 1 (by decide)

/-- C4: a non-numeric toggle segment such as `"abc"` yields a client-error
response with the actuator state unchanged and the handler not invoked; the
boundary segment `"255"` succeeds and toggles; the out-of-range segment
`"256"` is rejected as a client error with no state mutation — in both
demos. -/
theorem path_segment_validation (assets : StaticAssets) (s : Control) (l : Level) :
    (tokioDispatch assets ⟨"GET", ["toggle_led", "abc"]⟩ s = (s, .badRequest) ∧
     tokioDispatch assets ⟨"GET", ["toggle_led", "255"]⟩ s =
       ({ led2 := !s.led2 }, .text (if !s.led2 then "ON" else "OFF")) ∧
     tokioDispatch assets ⟨"GET", ["toggle_led", "256"]⟩ s = (s, .badRequest)) ∧
    (embassyDispatch assets ⟨"GET", ["toggle_led", "abc"]⟩ l = (l, .badRequest) ∧
     embassyDispatch assets ⟨"GET", ["toggle_led", "255"]⟩ l =
       (l.toggle, .text (if l.toggle.isSetHigh then "ON" else "OFF")) ∧
     embassyDispatch assets ⟨"GET", ["toggle_led", "256"]⟩ l = (l, .badRequest)) := by
  have habc : parseU8 "abc" = none := by decide
  have h255 : parseU8 "255" = some 255 := by decide
  have h256 : parseU8 "256" = none := by decide
  refine ⟨⟨?_, ?_, ?_⟩, ⟨?_, ?_, ?_⟩⟩ <;>
    simp [tokioDispatch, embassyDispatch, toggleSeg, habc, h255, h256,
      tokioToggleHandler, embassyToggleHandler]

/-- C5: in both toggle handlers the events occur in the order acquire the
exclusive access, mutate, read back the resulting value, release, respond —
the response is emitted only after the critical section is released, and its
body is constructed purely from the post-mutation value that was read back
inside the critical section. -/
theorem toggle_handler_critical_section_order :
    criticalSectionOrdered tokioToggleTrace ∧
    criticalSectionOrdered embassyToggleTrace ∧
    (∀ (n : Nat) (s : Control),
      (tokioToggleHandler n s).body =
        (if (tokioToggleHandler n s).state.led2 then "ON" else "OFF")) ∧
    (∀ (n : Nat) (l : Level),
      (embassyToggleHandler n l).body =
        (if (embassyToggleHandler n l).state.isSetHigh then "ON" else "OFF")) := by
  refine ⟨?_, ?_, ?_, ?_⟩
  · unfold criticalSectionOrdered tokioToggleTrace
    decide
  · unfold criticalSectionOrdered embassyToggleTrace
    decide
  · intro n s
    rfl
  · intro n l
    rfl

/-- C6: after any sequence of prior requests (in particular any
`/toggle_led/*` calls) and from any actuator state, a GET to `/`,
`/index.css` or `/index.js` returns the fixed payload with its fixed
content-type tag chosen at route registration and leaves the state
unchanged — so all N consecutive such GETs return identical responses,
independent of the actuator state, in both demos. -/
theorem static_routes_fixed_and_state_independent
    (assets : StaticAssets) (pre : List Request) (s : Control) (l : Level) :
    (tokioDispatch assets ⟨"GET", []⟩ (tokioServe assets pre s).1 =
       ((tokioServe assets pre s).1, .content "text/html" assets.html) ∧
     tokioDispatch assets ⟨"GET", ["index.css"]⟩ (tokioServe assets pre s).1 =
       ((tokioServe assets pre s).1, .content "text/css" assets.css) ∧
     tokioDispatch assets ⟨"GET", ["index.js"]⟩ (tokioServe assets pre s).1 =
       ((tokioServe assets pre s).1, .content "application/javascript" assets.js)) ∧
    (embassyDispatch assets ⟨"GET", []⟩ (embassyServe assets pre l).1 =
       ((embassyServe assets pre l).1, .content "text/html" assets.html) ∧
     embassyDispatch assets ⟨"GET", ["index.css"]⟩ (embassyServe assets pre l).1 =
       ((embassyServe assets pre l).1, .content "text/css" assets.css) ∧
     embassyDispatch assets ⟨"GET", ["index.js"]⟩ (embassyServe assets pre l).1 =
       ((embassyServe assets pre l).1, .content "application/javascript" assets.js)) := by
  refine ⟨⟨?_, ?_, ?_⟩, ⟨?_, ?_, ?_⟩⟩ <;> simp [tokioDispatch, embassyDispatch]

/-- C7: every request whose method and path match none of the four
registered routes receives a not-found response, with the actuator state
unchanged and no handler run, in both demos. -/
theorem unmatched_request_not_found (assets : StaticAssets) (req : Request)
    (h : matchesRoute req = false) (s : Control) (l : Level) :
    tokioDispatch assets req s = (s, .notFound) ∧
    embassyDispatch assets req l = (l, .notFound) := by
  obtain ⟨m, segs⟩ := req
  by_cases hm : m = "GET"
  · subst hm
    have h1 : segs ≠ [] := by
      intro he
      subst he
      exact absurd h (by decide)
    have h2 : segs ≠ ["index.css"] := by
      intro he
      subst he
      exact absurd h (by decide)
    have h3 : segs ≠ ["index.js"] := by
      intro he
      subst he
      exact absurd h (by decide)
    have h4 : toggleSeg segs = none := by
      cases htog : toggleSeg segs with
      | none => rfl
      | some seg => simp [matchesRoute, htog] at h
    constructor <;> simp [tokioDispatch, embassyDispatch, h1, h2, h3, h4]
  · constructor <;> simp [tokioDispatch, embassyDispatch, hm]

/-- Witness for C7 at GET `/nonexistent`: not-found and the state untouched
in both demos. -/
theorem unmatched_request_not_found_witness :
    tokioDispatch ⟨"", "", ""⟩ ⟨"GET", ["nonexistent"]⟩ ⟨true⟩ = (⟨true⟩, .notFound) ∧
    embassyDispatch ⟨"", "", ""⟩ ⟨"GET", ["nonexistent"]⟩ .high = (.high, .notFound) :=
  unmatched_request_not_found ⟨"", "", ""⟩ ⟨"GET", ["nonexistent"]⟩ (by decide)
    ⟨true⟩ .high

/-- C8: for every pair of valid 8-bit ids, the toggle requests invoke the
same handler on the same single shared actuator: the resulting state and the
response body are independent of the id, both at the handler level for
arbitrary ids and at the dispatch level for any two segments that parse as
u8 — the parsed id only affects the log line, in both demos. -/
theorem toggle_independent_of_led_id (assets : StaticAssets)
    (a b : Nat) (sa sb : String) (na nb : Nat)
    (ha : parseU8 sa = some na) (hb : parseU8 sb = some nb)
    (s : Control) (l : Level) :
    ((tokioToggleHandler a s).state = (tokioToggleHandler b s).state ∧
     (tokioToggleHandler a s).body = (tokioToggleHandler b s).body) ∧
    ((embassyToggleHandler a l).state = (embassyToggleHandler b l).state ∧
     (embassyToggleHandler a l).body = (embassyToggleHandler b l).body) ∧
    tokioDispatch assets ⟨"GET", ["toggle_led", sa]⟩ s =
      tokioDispatch assets ⟨"GET", ["toggle_led", sb]⟩ s ∧
    embassyDispatch assets ⟨"GET", ["toggle_led", sa]⟩ l =
      embassyDispatch assets ⟨"GET", ["toggle_led", sb]⟩ l := by
  refine ⟨⟨rfl, rfl⟩, ⟨rfl, rfl⟩, ?_, ?_⟩ <;>
    simp [tokioDispatch, embassyDispatch, toggleSeg, ha, hb, tokioToggleHandler,
      embassyToggleHandler]

/-- Witness for C8 at ids 2 and 7: identical state mutation and body in both
demos. -/
theorem toggle_independent_of_led_id_witness :
    ((tokioToggleHandler 2 ⟨true⟩).state = (tokioToggleHandler 7 ⟨true⟩).state ∧
     (tokioToggleHandler 2 ⟨true⟩).body = (tokioToggleHandler 7 ⟨true⟩).body) ∧
    ((embassyToggleHandler 2 .high).state = (embassyToggleHandler 7 .high).state ∧
     (embassyToggleHandler 2 .high).body = (embassyToggleHandler 7 .high).body) ∧
    tokioDispatch ⟨"", "", ""⟩ ⟨"GET", ["toggle_led", "2"]⟩ ⟨true⟩ =
      tokioDispatch ⟨"", "", ""⟩ ⟨"GET", ["toggle_led", "7"]⟩ ⟨true⟩ ∧
    embassyDispatch ⟨"", "", ""⟩ ⟨"GET", ["toggle_led", "2"]⟩ .high =
      embassyDispatch ⟨"", "", ""⟩ ⟨"GET", ["toggle_led", "7"]⟩ .high :=
  toggle_independent_of_led_id ⟨"", "", ""⟩ 2 7 "2" "7" 2 7 (by decide) (by decide)
    ⟨true⟩ .high

/-- C9: both programs initialise the shared actuator state to on at service
start — the tokio demo with `Control { led2: true }` and the embassy demo
with the PE1 output constructed at `Level::High` — so the first successful
toggle after startup returns the `"OFF"` representation. -/
theorem initial_state_on_and_first_toggle_reports_off (n : Nat) :
    tokioInitialControl.led2 = true ∧
    embassyInitialLevel = Level.high ∧
    (tokioToggleHandler n tokioInitialControl).body = "OFF" ∧
    (embassyToggleHandler n embassyInitialLevel).body = "OFF" :=
  ⟨rfl, rfl, rfl, rfl⟩

/-- C10: in the tokio program the handler's mutable borrow of the shared
RefCell is acquired and released within a single await-free segment — the
program's one and only borrow site — so under the cooperative single-thread
executor, every interleaving of connection-task segments executes without a
conflicting-borrow panic and leaves the cell unborrowed. -/
theorem refcell_borrow_mut_never_panics (run : List (List TaskOp))
    (h : ∀ seg ∈ run, seg ∈ splitSegments tokioHandlerOps) :
    tokioHandlerOps.count .borrowMut = 1 ∧ execRun run false = some false := by
  refine ⟨by decide, ?_⟩
  induction run with
  | nil => rfl
  | cons seg rest ih =>
    have hseg : seg ∈ splitSegments tokioHandlerOps := h seg (List.mem_cons_self seg rest)
    have hbal : execSegment seg false = some false := by
      have hall : ∀ t ∈ splitSegments tokioHandlerOps,
          execSegment t false = some false := by decide
      exact hall seg hseg
    have hrest := ih (fun t ht => h t (List.mem_cons_of_mem seg ht))
    simp [execRun, hbal, hrest]

/-- Witness for C10: two critical segments of two connection tasks run back
to back without a panic. -/
theorem refcell_borrow_mut_never_panics_witness :
    tokioHandlerOps.count .borrowMut = 1 ∧
    execRun
      [[.otherOp, .borrowMut, .otherOp, .otherOp, .otherOp, .releaseBorrow],
        [.otherOp, .borrowMut, .otherOp, .otherOp, .otherOp, .releaseBorrow]]
      false = some false :=
  refcell_borrow_mut_never_panics
    [[.otherOp, .borrowMut, .otherOp, .otherOp, .otherOp, .releaseBorrow],
      [.otherOp, .borrowMut, .otherOp, .otherOp, .otherOp, .releaseBorrow]]
    (by decide)

end Smolweb
